import Mathlib

/-!
Verification development for the herbal e-commerce backend
(`src/main.py`, `src/schemas.py`).

The Python sources are shallowly embedded below:

* pydantic models (`schemas.py`) become Lean structures whose field
  constraints (`ge=0`, `ge=1`, email syntax) become executable
  validation functions;
* FastAPI handlers (`main.py`) become pure functions from their inputs
  (query parameters, request body, store contents) to an
  `Except HttpError` result, with store updates passed explicitly;
* Python `float` is modelled as `ℚ`, Python `int` as `Int`;
* the data-access layer (`database.py`) is not part of the sources, so
  its operations (`create_document`, `get_documents`, MongoDB filter
  evaluation) are modelled from the specification, as noted on each
  such definition.
-/

/-- An HTTP error response, as raised by `HTTPException(status_code, detail)`
in `main.py`. -/
structure HttpError where
  status : Nat
  detail : String
deriving DecidableEq, Repr

/-- Python truthiness applied to an optional string, as in
`if q:` / `if category:` / `if tag:` in `main.py`: both `None` and the
empty string are falsy, so an empty-string query parameter behaves as if
it were absent. -/
def pyTruthy (s : Option String) : Option String :=
  match s with
  | none => none
  | some s => if s = "" then none else some s

/-- ASCII lower-casing of one character, modelling the case folding used
by a case-insensitive (`$options: "i"`) match. -/
def lowerChar (c : Char) : Char :=
  if 'A' ≤ c && c ≤ 'Z' then Char.ofNat (c.toNat + 32) else c

/-- Predicate `leadMatch needle hay` is true when `needle` is an initial segment of
`hay`. -/
def leadMatch : List Char → List Char → Bool
  | [], _ => true
  | _ :: _, [] => false
  | a :: as, b :: bs => a = b && leadMatch as bs

/-- Predicate `occursIn needle hay` is true when `needle` occurs contiguously
somewhere inside `hay`. -/
def occursIn (needle : List Char) : List Char → Bool
  | [] => leadMatch needle []
  | c :: cs => leadMatch needle (c :: cs) || occursIn needle cs

/-- Modelled from the spec: `database.py` (absent from the sources)
evaluates a MongoDB `$regex` condition with the `i` option; per §4.1 the
filter criteria of `get_documents` support "case-insensitive
substring/pattern match", so the pattern is interpreted as a
case-insensitive substring test. -/
def substrCI (hay pat : String) : Bool :=
  occursIn (pat.toList.map lowerChar) (hay.toList.map lowerChar)

/-! ### Resource models (`schemas.py`) -/

/-- Schema `HerbalProduct` from `schemas.py`: name, optional description,
price (float, `ge=0`), category, in_stock (default true), optional
image, optional ingredients list, optional usage. -/
structure HerbalProduct where
  name : String
  description : Option String
  price : ℚ
  category : String
  in_stock : Bool
  image : Option String
  ingredients : Option (List String)
  usage : Option String
deriving DecidableEq, Repr

/-- Schema `Article` from `schemas.py`: title, optional summary, content,
optional cover_image, optional tags list. -/
structure Article where
  title : String
  summary : Option String
  content : String
  cover_image : Option String
  tags : Option (List String)
deriving DecidableEq, Repr

/-- Schema `OrderItem` from `schemas.py`: product_id, name, price (float, no
declared bound), quantity (int, `ge=1`). -/
structure OrderItem where
  product_id : String
  name : String
  price : ℚ
  quantity : Int
deriving DecidableEq, Repr

/-- Schema `CustomerInfo` from `schemas.py`: name, optional email (`EmailStr`),
optional phone, address. -/
structure CustomerInfo where
  name : String
  email : Option String
  phone : Option String
  address : String
deriving DecidableEq, Repr

/-- Schema `Order` from `schemas.py`: items (a plain `List[OrderItem]`, with no
non-emptiness constraint declared), customer, optional note, total
(float, `ge=0`). -/
structure Order where
  items : List OrderItem
  customer : CustomerInfo
  note : Option String
  total : ℚ
deriving DecidableEq, Repr

/-- Modelled from the spec: pydantic's `EmailStr` syntax check lives in
an external library, not in the sources; the spec only says the email
"must be valid email syntax if present".  Modelled as: exactly one `@`,
a non-empty local part, and a non-empty domain containing a dot. -/
def isValidEmail (s : String) : Bool :=
  let cs := s.toList
  let lp := cs.takeWhile (fun c => c ≠ '@')
  match cs.drop lp.length with
  | '@' :: dom => !lp.isEmpty && !dom.isEmpty && dom.contains '.' && !dom.contains '@'
  | _ => false

/-- Constraint validation of `CustomerInfo`: field presence and types are
enforced by the structure itself; the only declared value constraint is
email syntax when an email is given. -/
def customerValid (c : CustomerInfo) : Bool :=
  match c.email with
  | none => true
  | some e => isValidEmail e

/-- Constraint validation of an `OrderItem`: the only declared value
constraint is `quantity ≥ 1` (`Field(..., ge=1)`); `price` has no
declared bound. -/
def orderItemValid (i : OrderItem) : Bool :=
  decide (1 ≤ i.quantity)

/-- Constraint validation of an `Order`, mirroring what pydantic checks
on the `Order` schema: `total ≥ 0`, every item's `quantity ≥ 1`, and the
customer's email syntax.  The `items` list has no non-emptiness
constraint and item prices have no bound. -/
def orderValid (o : Order) : Bool :=
  decide (0 ≤ o.total) && o.items.all orderItemValid && customerValid o.customer

/-- Constraint validation of a `HerbalProduct`: the only declared value
constraint is `price ≥ 0` (`Field(..., ge=0)`). -/
def productValid (p : HerbalProduct) : Bool :=
  decide (0 ≤ p.price)

/-! ### Product listing (`GET /api/products`, `main.py` lines 78-94) -/

/-- The MongoDB filter document built by `list_products` in `main.py`:
an optional `$or` clause (three case-insensitive regex conditions over
`name`, `description` and an `$elemMatch` over `ingredients`, all with
the same pattern, added when `q` is truthy) and an optional exact-match
`category` entry (added when `category` is truthy). -/
structure ProductFilter where
  qOr : Option String
  category : Option String
deriving DecidableEq, Repr

/-- Filter construction from `list_products` (`main.py` lines 82-91):
`if q:` adds the `$or` clause, `if category:` adds the equality entry. -/
def buildProductFilter (q category : Option String) : ProductFilter :=
  { qOr := pyTruthy q, category := pyTruthy category }

/-- Modelled from the spec: evaluation of the `list_products` filter by
`get_documents` (`database.py`, absent from the sources).  Per §4.1 the
store supports exact-match equality, case-insensitive substring match,
membership tests and logical OR; a condition on a field that is absent
(`None`) does not match. -/
def productMatches (f : ProductFilter) (p : HerbalProduct) : Bool :=
  (match f.qOr with
   | none => true
   | some q =>
     [substrCI p.name q,
      (match p.description with
       | some d => substrCI d q
       | none => false),
      (match p.ingredients with
       | some l => l.any (fun ing => substrCI ing q)
       | none => false)].any id) &&
  (match f.category with
   | none => true
   | some c => p.category == c)

/-- Handler `GET /api/products` (`list_products`, `main.py` lines 78-94): with no
configured store, raise a 500; otherwise return the products matching
the constructed filter.  `dbOk` models whether the global `db` handle is
non-`None`; `store` models the current contents of the `herbalproduct`
collection. -/
def list_products (dbOk : Bool) (q category : Option String)
    (store : List HerbalProduct) : Except HttpError (List HerbalProduct) :=
  if !dbOk then
    .error ⟨500, "Database not configured"⟩
  else
    .ok (store.filter (productMatches (buildProductFilter q category)))

/-- The product predicate as worded by the claim: with `q` present, `q`
occurs as a case-insensitive substring of the name, or of the
description, or of some element of the ingredients list; with
`category` present, the category field equals it exactly; both present
combine with AND; absent parameters impose nothing. -/
def claimProductMatch (q category : Option String) (p : HerbalProduct) : Bool :=
  (match q with
   | none => true
   | some s =>
     substrCI p.name s ||
     (match p.description with
      | some d => substrCI d s
      | none => false) ||
     (match p.ingredients with
      | some l => l.any (fun ing => substrCI ing s)
      | none => false)) &&
  (match category with
   | none => true
   | some c => p.category == c)

/-! ### Article listing (`GET /api/articles`, `main.py` lines 104-112) -/

/-- The MongoDB filter document built by `list_articles` in `main.py`:
an optional `{"tags": {"$in": [tag]}}` entry, added when `tag` is
truthy. -/
structure ArticleFilter where
  tagIn : Option String
deriving DecidableEq, Repr

/-- Filter construction from `list_articles` (`main.py` lines 108-110):
`if tag:` adds the `$in` entry. -/
def buildArticleFilter (tag : Option String) : ArticleFilter :=
  { tagIn := pyTruthy tag }

/-- Modelled from the spec: evaluation of the `list_articles` filter by
`get_documents` (`database.py`, absent from the sources).  A `$in`
condition on an array field is a membership test (§4.1); an absent
(`None`) tags field does not match. -/
def articleMatches (f : ArticleFilter) (a : Article) : Bool :=
  match f.tagIn with
  | none => true
  | some t =>
    match a.tags with
    | some l => l.contains t
    | none => false

/-- Handler `GET /api/articles` (`list_articles`, `main.py` lines 104-112). -/
def list_articles (dbOk : Bool) (tag : Option String)
    (store : List Article) : Except HttpError (List Article) :=
  if !dbOk then
    .error ⟨500, "Database not configured"⟩
  else
    .ok (store.filter (articleMatches (buildArticleFilter tag)))

/-- The article predicate as worded by the claim: with `tag` present,
exactly the articles whose tags list contains the given value as an
element; with no tag parameter, all articles. -/
def claimArticleMatch (tag : Option String) (a : Article) : Bool :=
  match tag with
  | none => true
  | some t =>
    match a.tags with
    | some l => l.contains t
    | none => false

/-! ### Order creation (`POST /api/orders`, `main.py` lines 122-129) -/

/-- The `order` collection together with the id counter of the store.
Modelled from the spec: `create_document` (in the absent `database.py`)
"inserts a validated document into the named collection; returns the
newly assigned unique identifier as a string" (§4.1). -/
structure OrderStore where
  docs : List Order
  nextId : Nat
deriving DecidableEq, Repr

/-- Modelled from the spec: `create_document("order", order)` appends the
document and returns the new identifier as a string (§4.1). -/
def create_document_order (s : OrderStore) (o : Order) : String × OrderStore :=
  (toString s.nextId, { docs := s.docs ++ [o], nextId := s.nextId + 1 })

/-- The tolerance `1e-6` used by `create_order`. -/
def tol : ℚ := 1 / 1000000

/-- Computation `calc_total` from `create_order` (`main.py` line 125):
`sum(i.price * i.quantity for i in order.items)`. -/
def calcTotal (o : Order) : ℚ :=
  (o.items.map (fun i => i.price * (i.quantity : ℚ))).sum

/-- Handler `create_order` (`main.py` lines 122-129) applied to an order that has
already passed schema validation: reject with a 400 when the recomputed
total differs from the declared one by more than `1e-6`, otherwise
persist and return the new id (status 201). -/
def create_order (o : Order) (s : OrderStore) :
    (Except HttpError (Nat × String)) × OrderStore :=
  if |calcTotal o - o.total| > tol then
    (.error ⟨400, "Total does not match sum of items"⟩, s)
  else
    let r := create_document_order s o
    (.ok (201, r.1), r.2)

/-- The full `POST /api/orders` pipeline: FastAPI first validates the
body against the `Order` schema (422 on failure, nothing runs), then the
handler body `create_order` runs. -/
def post_orders (o : Order) (s : OrderStore) :
    (Except HttpError (Nat × String)) × OrderStore :=
  if orderValid o then create_order o s
  else (.error ⟨422, "Unprocessable Entity"⟩, s)

/-! ### Startup seeding (`seed_data`, `main.py` lines 133-195) -/

/-- The three hard-coded sample products inserted by `seed_data`
(`main.py` lines 139-170). -/
def sampleProducts : List HerbalProduct :=
  [{ name := "Teh Jahe Hangat",
     description := some "Campuran jahe dan rempah untuk menghangatkan tubuh dan melancarkan pencernaan.",
     price := 35000,
     category := "Teh",
     in_stock := true,
     image := some "https://images.unsplash.com/photo-1512314889357-e157c22f938d",
     ingredients := some ["Jahe", "Kayu Manis", "Cengkeh"],
     usage := some "Seduh 1 sachet dengan 200ml air panas, minum 2x sehari." },
   { name := "Minyak Kayu Putih Alami",
     description := some "Minyak esensial untuk meredakan pegal, masuk angin, dan memberikan rasa hangat.",
     price := 42000,
     category := "Minyak",
     in_stock := true,
     image := some "https://images.unsplash.com/photo-1615485737651-6df9d6f5e3c1",
     ingredients := some ["Kayu Putih"],
     usage := some "Oleskan secukupnya pada area yang diperlukan." },
   { name := "Kapsul Kunyit Asam",
     description := some "Suplemen herbal untuk membantu menjaga kesehatan pencernaan dan stamina.",
     price := 59000,
     category := "Suplemen",
     in_stock := true,
     image := some "https://images.unsplash.com/photo-1615485290353-2e9d6f8897f0",
     ingredients := some ["Kunyit", "Asam Jawa"],
     usage := some "2 kapsul setelah makan pagi dan malam." }]

/-- The two hard-coded sample articles inserted by `seed_data`
(`main.py` lines 174-190). -/
def sampleArticles : List Article :=
  [{ title := "Manfaat Jahe untuk Kesehatan",
     summary := some "Jahe dikenal sebagai rempah serba guna. Berikut manfaat ilmiahnya.",
     content := "Jahe mengandung gingerol yang bersifat anti-inflamasi dan antioksidan...",
     cover_image := some "https://images.unsplash.com/photo-1604908176997-51f2d7f6f8e2",
     tags := some ["jahe", "pencernaan", "anti-inflamasi"] },
   { title := "Kunyit: Si Kuning yang Menyehatkan",
     summary := some "Kunyit memiliki kurkumin yang bermanfaat untuk tubuh.",
     content := "Kurkumin pada kunyit telah diteliti membantu mengurangi peradangan...",
     cover_image := some "https://images.unsplash.com/photo-1615485737651-6df9d6f5e3c1",
     tags := some ["kunyit", "antioksidan"] }]

/-- The contents of the `herbalproduct` and `article` collections, for
the seeding step. -/
structure SeedState where
  products : List HerbalProduct
  articles : List Article
deriving DecidableEq, Repr

/-- Startup hook `seed_data` (`main.py` lines 133-195): a no-op when the store handle
is `None`; otherwise each of the two collections receives its hard-coded
samples (appended one by one by `create_document`) exactly when
`count_documents({}) == 0`, i.e. when the collection is currently
empty. -/
def seed_data (dbOk : Bool) (st : SeedState) : SeedState :=
  if !dbOk then st
  else
    let st1 :=
      if st.products.length = 0 then
        { st with products := st.products ++ sampleProducts }
      else st
    if st1.articles.length = 0 then
      { st1 with articles := st1.articles ++ sampleArticles }
    else st1

/-! ### Diagnostics (`GET /test`, `main.py` lines 51-74) -/

/-- Python's `s[:80]`: the first 80 characters of a string. -/
def pyTruncate (s : String) : String :=
  String.mk (s.toList.take 80)

/-- The observable state of the store handle for the diagnostic
endpoint: either no handle (`db is None`), or a handle with the logical
database name, whether `DATABASE_URL` is set, and the outcome of
`list_collection_names()` (which either returns the collection names or
raises, modelled by `Except` with the exception's string form). -/
inductive DbConn where
  | unavail : DbConn
  | avail (name : String) (urlSet : Bool)
      (colls : Except String (List String)) : DbConn
deriving Repr

/-- The diagnostic response assembled by `test_database`. -/
structure TestResponse where
  backend : String
  database : String
  database_url : Option String
  database_name : Option String
  connection_status : String
  collections : List String
deriving DecidableEq, Repr

/-- Handler `test_database` (`main.py` lines 51-74): starts from a default
response, upgrades fields as each sub-check succeeds, and converts a
failure of `list_collection_names()` into a truncated warning message on
the `database` field alone, leaving `connection_status` and
`collections` at their defaults.  The function is total: every store
state yields a response. -/
def test_database (st : DbConn) : TestResponse :=
  match st with
  | .unavail =>
    { backend := "✅ Running",
      database := "❌ Not Available",
      database_url := none,
      database_name := none,
      connection_status := "Not Connected",
      collections := [] }
  | .avail name urlSet colls =>
    let urlStr := if urlSet then "✅ Set" else "❌ Not Set"
    match colls with
    | .ok cs =>
      { backend := "✅ Running",
        database := "✅ Connected & Working",
        database_url := some urlStr,
        database_name := some name,
        connection_status := "Connected",
        collections := cs }
    | .error e =>
      { backend := "✅ Running",
        database := "⚠️ Connected but Error: " ++ pyTruncate e,
        database_url := some urlStr,
        database_name := some name,
        connection_status := "Not Connected",
        collections := [] }

/-! ### Document serialization (`serialize_doc`, `main.py` lines 22-30) -/

/-- A naive Python `datetime`: calendar fields only, which is all the
ISO rendering needs. -/
structure PyDatetime where
  year : Nat
  month : Nat
  day : Nat
  hour : Nat
  minute : Nat
  second : Nat
deriving DecidableEq, Repr

/-- Zero-padding to two digits, as in `datetime.isoformat`. -/
def pad2 (n : Nat) : String :=
  if n < 10 then "0" ++ toString n else toString n

/-- Zero-padding of the year to four digits. -/
def pad4 (n : Nat) : String :=
  if n < 10 then "000" ++ toString n
  else if n < 100 then "00" ++ toString n
  else if n < 1000 then "0" ++ toString n
  else toString n

/-- Rendering `datetime.isoformat()` for a naive datetime with whole seconds:
`YYYY-MM-DDTHH:MM:SS`. -/
def isoformat (d : PyDatetime) : String :=
  pad4 d.year ++ "-" ++ pad2 d.month ++ "-" ++ pad2 d.day ++ "T" ++
    pad2 d.hour ++ ":" ++ pad2 d.minute ++ ":" ++ pad2 d.second

/-- A scalar value stored in a document field. -/
inductive Scalar where
  | str (s : String)
  | num (q : ℚ)
  | bool (b : Bool)
  | dt (d : PyDatetime)
  | oid (hex : String)
  | null
deriving DecidableEq, Repr

/-- A document field value: a scalar or an array of scalars (the only
array shape this application stores — ingredients and tags are string
lists). -/
inductive Value where
  | scalar (s : Scalar)
  | arr (l : List Scalar)
deriving DecidableEq, Repr

/-- A stored document, as the dict the handlers receive from the store:
an ordered association list of field name and value. -/
abbrev Doc : Type := List (String × Value)

/-- Python `str()` of a scalar, as applied to the popped `_id` value. -/
def pyStrScalar : Scalar → String
  | .str s => s
  | .num q => toString q
  | .bool b => if b then "True" else "False"
  | .dt d => isoformat d
  | .oid hex => hex
  | .null => "None"

/-- Python `str()` of a field value. -/
def pyStr : Value → String
  | .scalar s => pyStrScalar s
  | .arr l => "[" ++ String.intercalate ", " (l.map pyStrScalar) ++ "]"

/-- First value bound to a key in a document (Python dicts have unique
keys; on the model, lookup returns the first binding). -/
def dictLookup (d : Doc) (k : String) : Option Value :=
  match d with
  | [] => none
  | (k', v) :: rest => if k' = k then some v else dictLookup rest k

/-- Python `doc.pop(k)`: the document with every binding of `k` removed
(a Python dict holds at most one binding per key). -/
def dictRemove (d : Doc) (k : String) : Doc :=
  match d with
  | [] => []
  | (k', v) :: rest =>
    if k' = k then dictRemove rest k else (k', v) :: dictRemove rest k

/-- Python `doc[k] = v`: replace the value at `k` in place when the key exists,
otherwise append the new binding at the end, as Python dict assignment
does. -/
def dictSet (d : Doc) (k : String) (v : Value) : Doc :=
  if d.any (fun kv => kv.1 = k) then
    d.map (fun kv => if kv.1 = k then (k, v) else kv)
  else
    d ++ [(k, v)]

/-- The per-value datetime conversion of the loop in `serialize_doc`
(`main.py` lines 27-29): `isinstance(v, datetime)` matches a scalar
datetime only; everything else passes through unchanged. -/
def convertDt (v : Value) : Value :=
  match v with
  | .scalar (.dt d) => .scalar (.str (isoformat d))
  | v => v

/-- Function `serialize_doc` (`main.py` lines 22-30): when an `_id` binding
exists, pop it and assign `id` to its string form; then convert every
top-level datetime value to its ISO string. -/
def serialize_doc (d : Doc) : Doc :=
  let d1 :=
    match dictLookup d "_id" with
    | some v => dictSet (dictRemove d "_id") "id" (.scalar (.str (pyStr v)))
    | none => d
  d1.map (fun kv => (kv.1, convertDt kv.2))

/-! ### Concrete records used in witnesses and counterexamples -/

/-- A concrete product whose category is "Teh". -/
def prodTeh : HerbalProduct :=
  { name := "Teh Jahe", description := none, price := 35000,
    category := "Teh", in_stock := true, image := none,
    ingredients := none, usage := none }

/-- A concrete article tagged "kunyit". -/
def artKunyit : Article :=
  { title := "Kunyit", summary := none, content := "Kurkumin...",
    cover_image := none, tags := some ["kunyit"] }

/-- A concrete customer with no email. -/
def custA : CustomerInfo :=
  { name := "Budi", email := none, phone := none, address := "Jl. Mawar 1" }

/-- An empty order store. -/
def store0 : OrderStore := { docs := [], nextId := 0 }

/-- A concrete well-formed order: one item at price 35000 with
quantity 2, declared total 70000. -/
def orderW : Order :=
  { items := [{ product_id := "p1", name := "Teh Jahe Hangat",
                price := 35000, quantity := 2 }],
    customer := custA, note := none, total := 70000 }

/-- A concrete order whose items list is empty, with declared total 0. -/
def emptyOrder : Order :=
  { items := [], customer := custA, note := none, total := 0 }

/-- A concrete order containing a negative-price item, with a matching
declared total. -/
def negOrder : Order :=
  { items := [{ product_id := "p1", name := "X", price := -5, quantity := 1 },
              { product_id := "p2", name := "Y", price := 5, quantity := 1 }],
    customer := custA, note := none, total := 0 }

/-- A concrete stored document with an internal identifier, a string
field and a timestamp field. -/
def docW : Doc :=
  [("_id", .scalar (.oid "663a0c2f9d1e4b0001a7f3c2")),
   ("name", .scalar (.str "Teh Jahe")),
   ("created_at", .scalar (.dt ⟨2024, 1, 2, 3, 4, 5⟩))]

/-! ### Helper lemmas -/

/-- Helper: the Mongo filter constructed by `list_products` agrees
pointwise with the spec-worded predicate applied to the
truthiness-normalised parameters. -/
theorem productMatches_eq_claim (q category : Option String) (p : HerbalProduct) :
    productMatches (buildProductFilter q category) p
      = claimProductMatch (pyTruthy q) (pyTruthy category) p := by
  unfold productMatches buildProductFilter claimProductMatch
  cases pyTruthy q <;> cases pyTruthy category <;>
    simp [List.any_cons, List.any_nil, Bool.or_assoc]

/-! ### C8 -/

/-- C8: when the store is unavailable (`db is None`), both
`GET /api/products` and `GET /api/articles` fail with a 500 error
carrying the message "Database not configured", for every combination
of query parameters and store contents — in particular the result does
not depend on the store, so nothing is read or written. -/
theorem listing_unavailable_500 :
    ∀ (q category tag : Option String) (ps : List HerbalProduct)
      (arts : List Article),
      list_products false q category ps
          = .error ⟨500, "Database not configured"⟩ ∧
      list_articles false tag arts
          = .error ⟨500, "Database not configured"⟩ := by
  intro q category tag ps arts
  exact ⟨rfl, rfl⟩

/-! ### C10 -/

/-- C10: a query parameter supplied as the empty string is treated
exactly as if it were absent: `q=""` and `category=""` leave
`GET /api/products` unchanged relative to the corresponding absent
parameter, and `tag=""` leaves `GET /api/articles` unchanged. -/
theorem empty_params_treated_absent :
    ∀ (dbOk : Bool) (q category : Option String)
      (ps : List HerbalProduct) (arts : List Article),
      list_products dbOk (some "") category ps
          = list_products dbOk none category ps ∧
      list_products dbOk q (some "") ps = list_products dbOk q none ps ∧
      list_articles dbOk (some "") arts = list_articles dbOk none arts := by
  intro dbOk q category ps arts
  exact ⟨rfl, rfl, rfl⟩

/-! ### C2 -/

/-- C2 counterexample: with `category` supplied as the (present) empty
string, `GET /api/products` applies no category filter and returns every
product, while the claim's predicate (exact category equality) selects
none of them — so the returned list is not "exactly the products whose
category field equals it". -/
theorem products_empty_category_cex :
    list_products true none (some "") [prodTeh] = .ok [prodTeh] ∧
    [prodTeh].filter (claimProductMatch none (some "")) = [] := by
  exact ⟨rfl, rfl⟩

/-- C2 amended: for every request to `GET /api/products`, the returned
list is exactly the products selected by the claimed predicate
(case-insensitive substring of name OR description OR an ingredient for
`q`; exact equality for `category`; AND when both are given) — after
normalising each parameter by Python truthiness, i.e. a parameter
supplied as the empty string imposes no filter, exactly like an absent
one. -/
theorem list_products_amended :
    ∀ (q category : Option String) (store : List HerbalProduct),
      list_products true q category store
        = .ok (store.filter
            (claimProductMatch (pyTruthy q) (pyTruthy category))) := by
  intro q category store
  have h : productMatches (buildProductFilter q category)
      = claimProductMatch (pyTruthy q) (pyTruthy category) :=
    funext (productMatches_eq_claim q category)
  simp [list_products, h]

/-! ### C5 -/

/-- C5 counterexample: with `tag` supplied as the (present) empty
string, `GET /api/articles` applies no filter and returns every article,
while the claim's membership predicate selects none of them — so the
returned list is not "exactly the articles whose tags list contains the
given value". -/
theorem articles_empty_tag_cex :
    list_articles true (some "") [artKunyit] = .ok [artKunyit] ∧
    [artKunyit].filter (claimArticleMatch (some "")) = [] := by
  exact ⟨rfl, rfl⟩

/-- C5 amended: for every request to `GET /api/articles`, the returned
list is exactly the articles whose tags list contains the given tag as
an element — after normalising the parameter by Python truthiness: an
absent or empty-string tag imposes no filter and every article is
returned. -/
theorem list_articles_amended :
    ∀ (tag : Option String) (store : List Article),
      list_articles true tag store
        = .ok (store.filter (claimArticleMatch (pyTruthy tag))) := by
  intro tag store
  rfl

/-! ### C1 -/

/-- C1: for every schema-valid `Order` and every store state, the
`POST /api/orders` pipeline succeeds — persisting the order by appending
it to the collection and returning the newly assigned id with status
201 — exactly when `|sum(item.price * item.quantity) - total| ≤ 1e-6`;
on a mismatch it returns the 400 error "Total does not match sum of
items" and leaves the store unchanged. -/
theorem create_order_total_iff (o : Order) (s : OrderStore)
    (hv : orderValid o = true) :
    (|calcTotal o - o.total| ≤ tol →
      post_orders o s = (.ok (201, toString s.nextId),
        { docs := s.docs ++ [o], nextId := s.nextId + 1 })) ∧
    (tol < |calcTotal o - o.total| →
      post_orders o s
        = (.error ⟨400, "Total does not match sum of items"⟩, s)) := by
  constructor
  · intro h
    have hng : ¬ (|calcTotal o - o.total| > tol) := not_lt.mpr h
    simp [post_orders, hv, create_order, hng, create_document_order]
  · intro h
    simp [post_orders, hv, create_order, h]

/-- Helper: the concrete order `orderW` passes schema validation. -/
theorem orderW_valid : orderValid orderW = true := by rfl

/-- Helper: the item-sum of `orderW` matches its declared total within
the tolerance. -/
theorem orderW_tol : |calcTotal orderW - orderW.total| ≤ tol := by
  simp [calcTotal, orderW]
  norm_num [tol]

/-- C1 witness: the concrete order with one item priced 35000 at
quantity 2 and declared total 70000 is valid, within tolerance, and is
persisted with status 201 and the store's next id. -/
theorem create_order_total_iff_witness :
    orderValid orderW = true ∧ |calcTotal orderW - orderW.total| ≤ tol ∧
    post_orders orderW store0
      = (.ok (201, "0"), { docs := [orderW], nextId := 1 }) :=
  ⟨orderW_valid, orderW_tol,
    (create_order_total_iff orderW store0 orderW_valid).1 orderW_tol⟩

/-! ### C3 -/

/-- C3 counterexample: the concrete order with an empty items list and
total 0 passes schema validation (the `items` field of the `Order`
schema has no non-emptiness constraint) and `POST /api/orders` accepts
and stores it with status 201 — contradicting the claim that such an
order is rejected with 422 and never stored. -/
theorem empty_items_accepted_cex :
    emptyOrder.items = [] ∧ orderValid emptyOrder = true ∧
    post_orders emptyOrder store0
      = (.ok (201, "0"), { docs := [emptyOrder], nextId := 1 }) := by
  have hv : orderValid emptyOrder = true := rfl
  have hng : ¬ (|calcTotal emptyOrder - emptyOrder.total| > tol) := by
    simp [calcTotal, emptyOrder]
    norm_num [tol]
  refine ⟨rfl, hv, ?_⟩
  simp [post_orders, hv, create_order, hng, create_document_order, store0]
  rfl

/-- C3 amended: an empty items list never causes a validation failure:
an otherwise schema-valid order whose items list is empty reaches the
total check with an item-sum of 0, so it is accepted and stored (201)
when `total ≤ 1e-6` and rejected with the 400 total-mismatch error (not
a 422 validation error) otherwise. -/
theorem empty_items_amended (o : Order) (s : OrderStore)
    (hi : o.items = []) (hv : orderValid o = true) :
    (o.total ≤ tol →
      post_orders o s = (.ok (201, toString s.nextId),
        { docs := s.docs ++ [o], nextId := s.nextId + 1 })) ∧
    (tol < o.total →
      post_orders o s
        = (.error ⟨400, "Total does not match sum of items"⟩, s)) := by
  have h0 : calcTotal o = 0 := by simp [calcTotal, hi]
  have ht : (0:ℚ) ≤ o.total := by
    have h := hv
    simp only [orderValid, Bool.and_eq_true, decide_eq_true_iff] at h
    exact h.1.1
  have habs : |calcTotal o - o.total| = o.total := by
    rw [h0, zero_sub, abs_neg, abs_of_nonneg ht]
  constructor
  · intro h
    have hng : ¬ (|calcTotal o - o.total| > tol) := by
      rw [habs]
      exact not_lt.mpr h
    simp [post_orders, hv, create_order, hng, create_document_order]
  · intro h
    have hlt : tol < |calcTotal o - o.total| := by
      rw [habs]
      exact h
    simp [post_orders, hv, create_order, hlt]

/-- C3 witness: the empty-items order with total 0 satisfies every
hypothesis of the amended statement and is accepted and stored. -/
theorem empty_items_amended_witness :
    emptyOrder.items = [] ∧ orderValid emptyOrder = true ∧
    emptyOrder.total ≤ tol ∧
    post_orders emptyOrder store0
      = (.ok (201, "0"), { docs := [emptyOrder], nextId := 1 }) :=
  have hle : emptyOrder.total ≤ tol := by norm_num [emptyOrder, tol]
  ⟨rfl, rfl, hle, (empty_items_amended emptyOrder store0 rfl rfl).1 hle⟩

/-! ### C4 -/

/-- C4 counterexample: the concrete order containing an item with price
-5 passes schema validation (the `OrderItem` schema declares no lower
bound on `price`, only `quantity ≥ 1`) and, its totals matching, is
accepted and stored by `POST /api/orders` — contradicting the claim
that a negative item price is rejected with 422. -/
theorem negative_price_accepted_cex :
    (∃ i ∈ negOrder.items, i.price < 0) ∧ orderValid negOrder = true ∧
    post_orders negOrder store0
      = (.ok (201, "0"), { docs := [negOrder], nextId := 1 }) := by
  have hv : orderValid negOrder = true := rfl
  have hng : ¬ (|calcTotal negOrder - negOrder.total| > tol) := by
    simp [calcTotal, negOrder]
    norm_num [tol]
  refine ⟨⟨{ product_id := "p1", name := "X", price := -5, quantity := 1 },
    ?_, ?_⟩, hv, ?_⟩
  · simp [negOrder]
  · norm_num
  · simp [post_orders, hv, create_order, hng, create_document_order, store0]
    rfl

/-- C4 amended: item prices are not validated at all: replacing the
price of every item of an arbitrary order by an arbitrary value
(negative or not) leaves the outcome of schema validation unchanged —
only `quantity ≥ 1`, `total ≥ 0` and the customer's email syntax are
checked. -/
theorem price_not_validated (o : Order) (f : OrderItem → ℚ) :
    orderValid { o with items := o.items.map (fun i => { i with price := f i }) }
      = orderValid o := by
  simp [orderValid, orderItemValid, List.all_map, Function.comp_def]
  rfl

/-! ### C6: dictionary lemmas and the serialization theorem -/

/-- Helper: looking a key up after the datetime-conversion map of
`serialize_doc` converts the looked-up value. -/
theorem dictLookup_map_convert (d : Doc) (k : String) :
    dictLookup (d.map (fun kv => (kv.1, convertDt kv.2))) k
      = (dictLookup d k).map convertDt := by
  induction d with
  | nil => rfl
  | cons kv rest ih =>
    obtain ⟨k1, v1⟩ := kv
    by_cases h : k1 = k <;> simp [dictLookup, h, ih]

/-- Helper: after removal, the removed key has no binding. -/
theorem dictLookup_remove_self (d : Doc) (k : String) :
    dictLookup (dictRemove d k) k = none := by
  induction d with
  | nil => rfl
  | cons kv rest ih =>
    obtain ⟨k1, v1⟩ := kv
    rcases eq_or_ne k1 k with h | h
    · subst h
      simpa [dictRemove] using ih
    · simpa [dictRemove, dictLookup, h] using ih

/-- Helper: removal of one key leaves other lookups unchanged. -/
theorem dictLookup_remove_ne (d : Doc) (k k' : String) (h : k' ≠ k) :
    dictLookup (dictRemove d k) k' = dictLookup d k' := by
  induction d with
  | nil => rfl
  | cons kv rest ih =>
    obtain ⟨k1, v1⟩ := kv
    rcases eq_or_ne k1 k with h1 | h1
    · subst h1
      simpa [dictRemove, dictLookup, Ne.symm h] using ih
    · rcases eq_or_ne k1 k' with h2 | h2
      · subst h2
        simp [dictRemove, dictLookup, h1]
      · simpa [dictRemove, dictLookup, h1, h2] using ih

/-- Helper: a key occurs in a document exactly when its lookup succeeds. -/
theorem dictAny_eq_lookup (d : Doc) (k : String) :
    (d.any (fun kv => kv.1 = k)) = (dictLookup d k).isSome := by
  induction d with
  | nil => rfl
  | cons kv rest ih =>
    obtain ⟨k1, v1⟩ := kv
    by_cases h : k1 = k <;> simp [dictLookup, h, ih]

/-- Helper: looking up the assigned key after the in-place replacement
branch of `dictSet` yields the new value whenever the key was bound. -/
theorem dictLookup_mapset_self (d : Doc) (k : String) (v : Value) :
    dictLookup (d.map (fun kv => if kv.1 = k then (k, v) else kv)) k
      = (dictLookup d k).map (fun _ => v) := by
  induction d with
  | nil => rfl
  | cons kv rest ih =>
    obtain ⟨k1, v1⟩ := kv
    simp only [List.map_cons]
    rcases eq_or_ne k1 k with h | h
    · subst h
      rw [if_pos rfl]
      simp [dictLookup, ih]
    · rw [if_neg h]
      simp [dictLookup, h, ih]

/-- Helper: the in-place replacement branch of `dictSet` leaves other
lookups unchanged. -/
theorem dictLookup_mapset_ne (d : Doc) (k k' : String) (v : Value) (h : k' ≠ k) :
    dictLookup (d.map (fun kv => if kv.1 = k then (k, v) else kv)) k'
      = dictLookup d k' := by
  induction d with
  | nil => rfl
  | cons kv rest ih =>
    obtain ⟨k1, v1⟩ := kv
    simp only [List.map_cons]
    rcases eq_or_ne k1 k with h1 | h1
    · subst h1
      rw [if_pos rfl]
      simp [dictLookup, Ne.symm h, ih]
    · rw [if_neg h1]
      rcases eq_or_ne k1 k' with h2 | h2
      · subst h2
        simp [dictLookup, ih]
      · simp [dictLookup, h2, ih]

/-- Helper: lookup distributes over appending documents. -/
theorem dictLookup_append (d d' : Doc) (k : String) :
    dictLookup (d ++ d') k
      = match dictLookup d k with
        | some v => some v
        | none => dictLookup d' k := by
  induction d with
  | nil => rfl
  | cons kv rest ih =>
    obtain ⟨k1, v1⟩ := kv
    by_cases h : k1 = k <;> simp [dictLookup, h, ih]

/-- Helper: after `dictSet d k v`, looking up `k` yields `v`. -/
theorem dictLookup_set_self (d : Doc) (k : String) (v : Value) :
    dictLookup (dictSet d k v) k = some v := by
  unfold dictSet
  by_cases h : d.any (fun kv => kv.1 = k)
  · rw [if_pos h, dictLookup_mapset_self]
    rw [dictAny_eq_lookup] at h
    cases hl : dictLookup d k with
    | none => rw [hl] at h; simp at h
    | some w => rfl
  · rw [if_neg h, dictLookup_append]
    rw [dictAny_eq_lookup] at h
    cases hl : dictLookup d k with
    | none => simp [dictLookup]
    | some w => rw [hl] at h; simp at h

/-- Helper: `dictSet` on one key leaves other lookups unchanged. -/
theorem dictLookup_set_ne (d : Doc) (k k' : String) (v : Value) (h : k' ≠ k) :
    dictLookup (dictSet d k v) k' = dictLookup d k' := by
  unfold dictSet
  by_cases ha : d.any (fun kv => kv.1 = k)
  · rw [if_pos ha, dictLookup_mapset_ne _ _ _ _ h]
  · rw [if_neg ha, dictLookup_append]
    cases hl : dictLookup d k' with
    | none => simp [dictLookup, Ne.symm h]
    | some w => rfl

/-- C6: for every stored document carrying an internal `_id` binding,
the serialized output binds `id` to the string representation of that
identifier, carries no `_id` binding, and binds every other key of the
input to its original value — converted to its ISO-8601 string form when
it is a timestamp, and completely unchanged otherwise. -/
theorem serialize_doc_spec (d : Doc) (v : Value)
    (h : dictLookup d "_id" = some v) :
    dictLookup (serialize_doc d) "id" = some (.scalar (.str (pyStr v))) ∧
    dictLookup (serialize_doc d) "_id" = none ∧
    (∀ (k : String) (w : Value), k ≠ "_id" → k ≠ "id" →
      dictLookup d k = some w →
      dictLookup (serialize_doc d) k = some (convertDt w)) ∧
    (∀ w : Value, (∀ t : PyDatetime, w ≠ .scalar (.dt t)) → convertDt w = w) ∧
    (∀ t : PyDatetime, convertDt (.scalar (.dt t)) = .scalar (.str (isoformat t))) := by
  refine ⟨?_, ?_, ?_, ?_, ?_⟩
  · rw [serialize_doc]
    simp only [h]
    rw [dictLookup_map_convert, dictLookup_set_self]
    rfl
  · rw [serialize_doc]
    simp only [h]
    rw [dictLookup_map_convert, dictLookup_set_ne _ _ _ _ (by decide),
      dictLookup_remove_self]
    rfl
  · intro k w hk1 hk2 hl
    rw [serialize_doc]
    simp only [h]
    rw [dictLookup_map_convert, dictLookup_set_ne _ _ _ _ hk2,
      dictLookup_remove_ne _ _ _ hk1, hl]
    rfl
  · intro w hw
    cases w with
    | scalar s =>
      cases s with
      | dt t => exact absurd rfl (hw t)
      | str s => rfl
      | num q => rfl
      | bool b => rfl
      | oid hex => rfl
      | null => rfl
    | arr l => rfl
  · intro t
    rfl

/-- C6 witness: serializing the concrete document `docW` renames its
object-id `_id` to a string `id`, drops `_id`, and renders its
`created_at` timestamp as an ISO-8601 string. -/
theorem serialize_doc_spec_witness :
    dictLookup docW "_id" = some (.scalar (.oid "663a0c2f9d1e4b0001a7f3c2")) ∧
    dictLookup (serialize_doc docW) "id"
      = some (.scalar (.str "663a0c2f9d1e4b0001a7f3c2")) ∧
    dictLookup (serialize_doc docW) "_id" = none ∧
    dictLookup (serialize_doc docW) "created_at"
      = some (.scalar (.str "2024-01-02T03:04:05")) := by
  have hspec := serialize_doc_spec docW (.scalar (.oid "663a0c2f9d1e4b0001a7f3c2")) rfl
  exact ⟨rfl, hspec.1, hspec.2.1,
    hspec.2.2.1 "created_at" (.scalar (.dt ⟨2024, 1, 2, 3, 4, 5⟩))
      (by decide) (by decide) rfl⟩

/-! ### C7 -/

/-- C7: startup seeding inserts the fixed samples (three products, two
articles) into each collection exactly when that collection is currently
empty: a non-empty products collection is left untouched (and likewise
for articles), an empty one receives precisely the samples, and running
the seeding a second time changes nothing — in particular a second run
on a non-empty products collection inserts no records. -/
theorem seed_data_spec (st : SeedState) :
    (st.products ≠ [] → (seed_data true st).products = st.products) ∧
    (st.products = [] → (seed_data true st).products = sampleProducts) ∧
    (st.articles ≠ [] → (seed_data true st).articles = st.articles) ∧
    (st.articles = [] → (seed_data true st).articles = sampleArticles) ∧
    seed_data true (seed_data true st) = seed_data true st := by
  have hsp : sampleProducts ≠ [] := by simp [sampleProducts]
  have hsa : sampleArticles ≠ [] := by simp [sampleArticles]
  refine ⟨?_, ?_, ?_, ?_, ?_⟩
  · intro hne
    simp only [seed_data, Bool.not_true, List.length_eq_zero, if_neg hne,
      Bool.false_eq_true, if_false]
    split <;> rfl
  · intro hp
    simp [seed_data, List.length_eq_zero, hp]
    split <;> rfl
  · intro hne
    simp only [seed_data, Bool.not_true, List.length_eq_zero,
      Bool.false_eq_true, if_false]
    split <;> simp [hne]
  · intro ha
    simp only [seed_data, Bool.not_true, List.length_eq_zero,
      Bool.false_eq_true, if_false]
    split <;> simp [ha]
  · by_cases hp : st.products = [] <;> by_cases ha : st.articles = [] <;>
      simp [seed_data, List.length_eq_zero, hp, ha, hsp, hsa]

/-- C7 witness: seeding a state whose products collection already holds
one product and whose articles collection is empty leaves the products
untouched and fills the articles with the two samples. -/
theorem seed_data_spec_witness :
    ([prodTeh] : List HerbalProduct) ≠ [] ∧
    (seed_data true { products := [prodTeh], articles := [] }).products
      = [prodTeh] ∧
    (seed_data true { products := [prodTeh], articles := [] }).articles
      = sampleArticles := by
  refine ⟨by simp, ?_, ?_⟩
  · exact (seed_data_spec { products := [prodTeh], articles := [] }).1 (by simp)
  · exact (seed_data_spec { products := [prodTeh], articles := [] }).2.2.2.1 rfl

/-! ### C9 -/

/-- C9: the diagnostic endpoint is total — every store state produces a
response with `backend` reporting "✅ Running" — and when the
collection-listing sub-check fails with some exception message, only the
`database` field is downgraded (to a warning carrying the error text
truncated to at most 80 characters): `database_url` and `database_name`
are exactly what the successful run reports, while `connection_status`
and `collections` stay at their defaults. -/
theorem test_database_guarded :
    (∀ st : DbConn, (test_database st).backend = "✅ Running") ∧
    (∀ (dbname : String) (urlSet : Bool) (e : String),
      test_database (.avail dbname urlSet (.error e))
        = { backend := "✅ Running",
            database := "⚠️ Connected but Error: " ++ pyTruncate e,
            database_url :=
              (test_database (.avail dbname urlSet (.ok []))).database_url,
            database_name :=
              (test_database (.avail dbname urlSet (.ok []))).database_name,
            connection_status := "Not Connected",
            collections := [] } ∧
      (pyTruncate e).length ≤ 80) := by
  constructor
  · intro st
    cases st with
    | unavail => rfl
    | avail n u c => cases c <;> rfl
  · intro dbname urlSet e
    refine ⟨rfl, ?_⟩
    have h : (pyTruncate e).length = (e.toList.take 80).length := rfl
    rw [h, List.length_take]
    exact Nat.min_le_left _ _
